import Mathlib

/-!
Shallow embedding of the Trader repository (event-driven trading pipeline):
order-id generation (`src/trader/utils/order_ids.py`), risk math
(`src/trader/utils/risk.py`), the risk-service and execution-service signal
handlers (`src/trader/services/risk_service.py`,
`src/trader/services/execution_service.py`) and the trend strategy evaluation
(`src/trader/services/strategy_service.py`).

Conventions: Python floats are modelled as `ℚ`; Python `None`-able values as
`Option`; exceptions as `Except String`; the ambient wall clock
(`time.time_ns()`) is passed in as an explicit `now_ns : Int` parameter.
-/

set_option maxRecDepth 100000

namespace Trader

/-! ### blake2b (RFC 7693), as used by `hashlib.blake2b(payload, digest_size=12)`

64-bit words are `Nat` values kept below `2 ^ 64`; additions are reduced
modulo `2 ^ 64` explicitly. -/

/-- The blake2b initialisation vector (RFC 7693 §2.6). -/
def blakeIV : List Nat :=
  [0x6a09e667f3bcc908, 0xbb67ae8584caa73b, 0x3c6ef372fe94f82b, 0xa54ff53a5f1d36f1,
   0x510e527fade682d1, 0x9b05688c2b3e6c1f, 0x1f83d9abfb41bd6b, 0x5be0cd19137e2179]

/-- The blake2b message schedule SIGMA (RFC 7693 §2.7); rounds 10 and 11 reuse
rows 0 and 1 via the `% 10` in `sigmaAt`. -/
def blakeSigma : List (List Nat) :=
  [[0, 1, 2, 3, 4, 5, 6, 7, 8, 9, 10, 11, 12, 13, 14, 15],
   [14, 10, 4, 8, 9, 15, 13, 6, 1, 12, 0, 2, 11, 7, 5, 3],
   [11, 8, 12, 0, 5, 2, 15, 13, 10, 14, 3, 6, 7, 1, 9, 4],
   [7, 9, 3, 1, 13, 12, 11, 14, 2, 6, 5, 10, 4, 0, 15, 8],
   [9, 0, 5, 7, 2, 4, 10, 15, 14, 1, 11, 12, 6, 8, 3, 13],
   [2, 12, 6, 10, 0, 11, 8, 3, 4, 13, 7, 5, 15, 14, 1, 9],
   [12, 5, 1, 15, 14, 13, 4, 10, 0, 7, 6, 3, 9, 2, 8, 11],
   [13, 11, 7, 14, 12, 1, 3, 9, 5, 0, 15, 4, 8, 6, 2, 10],
   [6, 15, 14, 9, 11, 3, 0, 8, 12, 2, 13, 7, 1, 4, 10, 5],
   [10, 2, 8, 4, 7, 6, 1, 5, 15, 11, 9, 14, 3, 12, 13, 0]]

def sigmaAt (r i : Nat) : Nat := (blakeSigma.getD (r % 10) []).getD i 0

/-- Rotate a 64-bit word (a `Nat` below `2 ^ 64`) right by `n` bits. -/
def rotr64 (x n : Nat) : Nat := x / 2 ^ n + x % 2 ^ n * 2 ^ (64 - n)

/-- The blake2b mixing function G (RFC 7693 §3.1) on four state words and two
message words. -/
def blakeG (a b c d x y : Nat) : Nat × Nat × Nat × Nat :=
  let a := (a + b + x) % 2 ^ 64
  let d := rotr64 (Nat.xor d a) 32
  let c := (c + d) % 2 ^ 64
  let b := rotr64 (Nat.xor b c) 24
  let a := (a + b + y) % 2 ^ 64
  let d := rotr64 (Nat.xor d a) 16
  let c := (c + d) % 2 ^ 64
  let b := rotr64 (Nat.xor b c) 63
  (a, b, c, d)

/-- Apply G to the work vector `v` at indices `i0 i1 i2 i3` with message words
`x y`. -/
def applyG (v : List Nat) (i0 i1 i2 i3 x y : Nat) : List Nat :=
  let r := blakeG (v.getD i0 0) (v.getD i1 0) (v.getD i2 0) (v.getD i3 0) x y
  ((((v.set i0 r.1).set i1 r.2.1).set i2 r.2.2.1).set i3 r.2.2.2)

/-- One blake2b round: mix columns then diagonals of the 4×4 work vector. -/
def blakeRound (m : List Nat) (v : List Nat) (r : Nat) : List Nat :=
  let s := fun i => m.getD (sigmaAt r i) 0
  let v := applyG v 0 4 8 12 (s 0) (s 1)
  let v := applyG v 1 5 9 13 (s 2) (s 3)
  let v := applyG v 2 6 10 14 (s 4) (s 5)
  let v := applyG v 3 7 11 15 (s 6) (s 7)
  let v := applyG v 0 5 10 15 (s 8) (s 9)
  let v := applyG v 1 6 11 12 (s 10) (s 11)
  let v := applyG v 2 7 8 13 (s 12) (s 13)
  applyG v 3 4 9 14 (s 14) (s 15)

/-- The blake2b compression function F (RFC 7693 §3.2): `h` is the 8-word
chain value, `m` the 16-word message block, `t` the byte counter, `last`
the final-block flag. -/
def blakeCompress (h m : List Nat) (t : Nat) (last : Bool) : List Nat :=
  let v := h ++ blakeIV
  let v := v.set 12 (Nat.xor (v.getD 12 0) (t % 2 ^ 64))
  let v := v.set 13 (Nat.xor (v.getD 13 0) (t / 2 ^ 64 % 2 ^ 64))
  let v := if last then v.set 14 (Nat.xor (v.getD 14 0) (2 ^ 64 - 1)) else v
  let v := (List.range 12).foldl (blakeRound m) v
  (List.range 8).map fun i => Nat.xor (h.getD i 0) (Nat.xor (v.getD i 0) (v.getD (i + 8) 0))

/-- Interpret up to 128 bytes as 16 little-endian 64-bit words, zero padded. -/
def wordsOfBlock (block : List Nat) : List Nat :=
  (List.range 16).map fun i =>
    (List.range 8).foldr (fun j acc => acc * 256 + block.getD (8 * i + j) 0) 0

/-- Process the message 128-byte block by block; `fuel` is structural fuel
(always called with more fuel than blocks), `t` the bytes consumed so far. -/
def blakeCore : Nat → List Nat → List Nat → Nat → List Nat
  | 0, h, _, _ => h
  | fuel + 1, h, data, t =>
    if data.length ≤ 128 then blakeCompress h (wordsOfBlock data) (t + data.length) true
    else blakeCore fuel (blakeCompress h (wordsOfBlock (data.take 128)) (t + 128) false)
      (data.drop 128) (t + 128)

/-- blake2b of a byte list with the given digest size (keyless), returning the
digest as a byte list: chain value initialised from the IV with the parameter
block (digest length, no key) folded into `h₀`. -/
def blake2b (data : List Nat) (digestSize : Nat) : List Nat :=
  let h := blakeIV.set 0 (Nat.xor (Nat.xor (blakeIV.getD 0 0) 0x01010000) digestSize)
  let h := blakeCore (data.length + 1) h data 0
  (List.range digestSize).map fun i => h.getD (i / 8) 0 / 256 ^ (i % 8) % 256

/-- Lowercase hexadecimal digit for a nibble, as Python's `hexdigest`. -/
def hexChar (n : Nat) : Char :=
  if n < 10 then Char.ofNat (48 + n) else Char.ofNat (87 + n)

/-- Two lowercase hex characters of one byte. -/
def byteToHex (b : Nat) : List Char := [hexChar (b / 16), hexChar (b % 16)]

/-- Python `bytes.hex()` / `hashlib`'s `hexdigest`: lowercase hex string. -/
def hexdigest (bytes : List Nat) : String := ⟨(bytes.map byteToHex).flatten⟩

/-- UTF-8 encoding of one character (Python `str.encode("utf-8")`). -/
def utf8Char (c : Char) : List Nat :=
  let n := c.toNat
  if n < 0x80 then [n]
  else if n < 0x800 then [0xc0 + n / 64, 0x80 + n % 64]
  else if n < 0x10000 then [0xe0 + n / 4096, 0x80 + n / 64 % 64, 0x80 + n % 64]
  else [0xf0 + n / 262144, 0x80 + n / 4096 % 64, 0x80 + n / 64 % 64, 0x80 + n % 64]

/-- UTF-8 bytes of a string. -/
def strBytes (s : String) : List Nat := (s.data.map utf8Char).flatten

/-! ### `src/trader/utils/order_ids.py` -/

/-- `make_client_order_id(strategy, symbol, side, *, timestamp_ns=None, nonce=0)`.
`now_ns` is the ambient clock: the source reads `time.time_ns()` whenever
`timestamp_ns` is `None`. The payload is the f-string
`"{strategy}:{symbol}:{side}:{ts}:{nonce}"` hashed with
`hashlib.blake2b(..., digest_size=12).hexdigest()`. -/
def make_client_order_id (strategy symbol side : String)
    (timestamp_ns : Option Int) (nonce : Int) (now_ns : Int) : String :=
  let ts := timestamp_ns.getD now_ns
  let payload :=
    strategy ++ ":" ++ symbol ++ ":" ++ side ++ ":" ++ toString ts ++ ":" ++ toString nonce
  hexdigest (blake2b (strBytes payload) 12)

/-! ### `src/trader/utils/risk.py` -/

/-- `PortfolioState` dataclass. -/
structure PortfolioState where
  equity : ℚ
  open_risk : ℚ
  cumulative_drawdown : ℚ
  daily_loss : ℚ
  volatility_scalar : ℚ := 1

/-- The `volatility_targeting` sub-dict of the risk settings; `.get` on a
missing key yields `none`. `enabled` is truthy only when `some true`. -/
structure VolatilityTargeting where
  enabled : Option Bool := none
  target_portfolio_vol : Option ℚ := none

/-- The `circuit_breakers` sub-dict of the risk settings. -/
structure CircuitBreakersConfig where
  daily_loss : Option ℚ := none
  total_drawdown : Option ℚ := none

/-- The risk-settings dict handed to the utils (`RiskConfig.model_dump()` in
the services, or any dict for direct callers); every key may be absent. -/
structure RiskSettings where
  max_risk_per_trade : Option ℚ := none
  max_portfolio_heat : Option ℚ := none
  max_leverage : Option ℚ := none
  volatility_targeting : Option VolatilityTargeting := none
  circuit_breakers : Option CircuitBreakersConfig := none

/-- `calculate_volatility_targeted_position_value`: raises `ValueError` when
`asset_vol ≤ 0`, otherwise `equity * (target_portfolio_vol / asset_vol)`. -/
def calculate_volatility_targeted_position_value (equity target_portfolio_vol asset_vol : ℚ) :
    Except String ℚ :=
  if asset_vol ≤ 0 then .error "Asset volatility must be positive."
  else .ok (equity * (target_portfolio_vol / asset_vol))

/-- Python truthiness of an optional number: `None` and `0` are falsy. -/
def qTruthy (o : Option ℚ) : Bool :=
  match o with
  | none => false
  | some v => decide (v ≠ 0)

/-- `calculate_position_size(equity, stop_distance, settings, asset_vol=None)`.
Mirrors the source: `max_risk = equity * settings.get("max_risk_per_trade", 0.02)`;
raises on `stop_distance <= 0`; when volatility targeting is enabled and
`asset_vol` is truthy it reads `settings["volatility_targeting"]["target_portfolio_vol"]`
(a `KeyError` when absent) and returns the min of the risk-capped and
vol-targeted sizes. -/
def calculate_position_size (equity stop_distance : ℚ) (settings : RiskSettings)
    (asset_vol : Option ℚ) : Except String ℚ :=
  let max_risk := equity * (settings.max_risk_per_trade.getD (2 / 100))
  if stop_distance ≤ 0 then .error "stop_distance must be positive"
  else
    let risk_capped_size := max_risk / stop_distance
    let vt := settings.volatility_targeting.getD {}
    if vt.enabled.getD false && qTruthy asset_vol then
      match settings.volatility_targeting with
      | none => .error "KeyError: volatility_targeting"
      | some vt' =>
        match vt'.target_portfolio_vol with
        | none => .error "KeyError: target_portfolio_vol"
        | some target_vol =>
          match calculate_volatility_targeted_position_value equity target_vol
              (asset_vol.getD 0) with
          | .error e => .error e
          | .ok value => .ok (min risk_capped_size (value / stop_distance))
    else .ok risk_capped_size

/-- `apply_circuit_breakers(state, config)`: `True` = halt. Defaults:
`circuit_breakers.daily_loss` 1.0, `circuit_breakers.total_drawdown` 1.0,
`max_portfolio_heat` 0.06. -/
def apply_circuit_breakers (state : PortfolioState) (config : RiskSettings) : Bool :=
  let breaker := config.circuit_breakers.getD {}
  if state.daily_loss ≤ -(breaker.daily_loss.getD 1) * state.equity then true
  else if state.cumulative_drawdown ≤ -(breaker.total_drawdown.getD 1) * state.equity then true
  else
    let max_heat := config.max_portfolio_heat.getD (6 / 100) * state.equity
    if state.open_risk > max_heat then true
    else false

deriving instance DecidableEq for Except

/-! ### Data model (`src/trader/models/order.py`, `src/trader/models/position.py`) -/

/-- `OrderSide` enum. -/
inductive OrderSide where
  | buy
  | sell
deriving DecidableEq

/-- The `.value` string of an `OrderSide` member. -/
def OrderSide.value : OrderSide → String
  | .buy => "buy"
  | .sell => "sell"

/-- `OrderType` enum. -/
inductive OrderType where
  | market
  | limit
  | stop_market
  | stop_limit
  | take_profit
deriving DecidableEq

/-- The `.value` string of an `OrderType` member. -/
def OrderType.value : OrderType → String
  | .market => "market"
  | .limit => "limit"
  | .stop_market => "stop_market"
  | .stop_limit => "stop_limit"
  | .take_profit => "take_profit"

/-- `OrderStatus` enum. -/
inductive OrderStatus where
  | new
  | pending
  | partially_filled
  | filled
  | canceled
  | rejected
deriving DecidableEq

/-- The `params` dict of a ccxt `create_order` call: `clientOrderId` always,
`reduceOnly` / `stopPrice` only on stop orders. -/
structure OrderParams where
  clientOrderId : String
  reduceOnly : Option Bool := none
  stopPrice : Option ℚ := none
deriving DecidableEq

/-- The keyword arguments of a venue `create_order` call, as assembled by
`ExecutionService` (`order_request` / `stop_request` dicts). -/
structure OrderRequest where
  symbol : String
  type : String
  side : String
  amount : ℚ
  price : Option ℚ
  params : OrderParams
deriving DecidableEq

/-- The `raw_response` payload stored on an Order row: the literal
`status: dry_run` object in dry-run mode, or the venue's response (abstracted
to an identifier) on the live path. -/
inductive RawResponse where
  | dry_run
  | venue (resp : Nat)
deriving DecidableEq

/-- An `orders` table row, restricted to the columns `ExecutionService`
writes. -/
structure OrderRow where
  client_order_id : String
  strategy : String
  symbol : String
  exchange : String
  side : OrderSide
  type : OrderType
  price : Option ℚ
  quantity : ℚ
  raw_request : OrderRequest
  raw_response : RawResponse
  status : OrderStatus
deriving DecidableEq

/-- A `positions` table row, restricted to the columns the services read or
write; `closed_at` is the nullable close timestamp. -/
structure PositionRow where
  symbol : String
  exchange : String
  strategy : String
  quantity : ℚ
  entry_price : ℚ
  stop_price : ℚ
  reduce_only_stop_installed : Bool
  closed_at : Option Nat := none
deriving DecidableEq

/-- The persisted trading state `ExecutionService` touches. -/
structure ExecState where
  orders : List OrderRow
  positions : List PositionRow
deriving DecidableEq

/-- The venue adapter capability: each `create_order` call either returns a
response or raises. -/
structure VenueBehavior where
  create_order : OrderRequest → Except String Nat

/-- The `risk` sub-dict of a signal payload. -/
structure RiskPayload where
  stop_distance : Option ℚ := none
  position_size : Option ℚ := none
deriving DecidableEq

/-- A (approved) signal event payload, restricted to the keys the risk and
execution services read. A missing `risk` key and an empty `risk` dict are
both modelled as `none` (both are falsy at the `if not risk_payload` check
and lead to the same drop). -/
structure SignalPayload where
  strategy : String
  exchange : String
  symbol : String
  decision : String
  price : Option ℚ
  risk : Option RiskPayload
deriving DecidableEq

/-- Python falsiness of an optional float: `None`, `0` and `0.0` are falsy. -/
def qFalsy (o : Option ℚ) : Bool :=
  match o with
  | none => true
  | some v => decide (v = 0)

/-! ### `src/trader/services/execution_service.py` -/

/-- `_record_order`: open a session, `session.add(order)`, commit (an insert
appending one row). -/
def record_order (st : ExecState) (row : OrderRow) : ExecState :=
  { st with orders := st.orders ++ [row] }

/-- `_update_position`: `query(Position).filter_by(symbol, exchange,
strategy).one_or_none()`; update the matching row (adding the quantity,
overwriting prices, `mark_stop_installed`) or insert a fresh row with
`reduce_only_stop_installed=True`. -/
def update_position (symbol exchange strategy : String)
    (quantity entry_price stop_price : ℚ) : List PositionRow → List PositionRow
  | [] => [{ symbol := symbol, exchange := exchange, strategy := strategy,
             quantity := quantity, entry_price := entry_price, stop_price := stop_price,
             reduce_only_stop_installed := true, closed_at := none }]
  | pos :: rest =>
    if pos.symbol = symbol ∧ pos.exchange = exchange ∧ pos.strategy = strategy then
      { pos with quantity := pos.quantity + quantity, entry_price := entry_price,
                 stop_price := stop_price, reduce_only_stop_installed := true } :: rest
    else pos :: update_position symbol exchange strategy quantity entry_price stop_price rest

/-- The `order_request` dict built in `_handle_signal` (lines 80–94):
`side` from `decision`, `client_order_id` from `make_client_order_id(strategy,
symbol, side.value)` — note: called without `timestamp_ns`, so it hashes the
ambient `time.time_ns()` (`now_ns`) —, type `limit`, amount `position_size`,
price from the payload. -/
def entry_request (p : SignalPayload) (now_ns : Int) : OrderRequest :=
  let side := if p.decision = "buy" then OrderSide.buy else OrderSide.sell
  let cid := make_client_order_id p.strategy p.symbol side.value none 0 now_ns
  { symbol := p.symbol, type := OrderType.limit.value, side := side.value,
    amount := (p.risk.getD {}).position_size.getD 0, price := p.price,
    params := { clientOrderId := cid } }

/-- The stop price computed in `_install_stop`: entry − distance for buys,
entry + distance for sells. -/
def stop_price_of (side : OrderSide) (entry_price stop_distance : ℚ) : ℚ :=
  if side = OrderSide.buy then entry_price - stop_distance else entry_price + stop_distance

/-- The `stop_request` dict built in `_install_stop` (lines 157–171):
opposite side, `stop_market` type, same size, null price, `reduceOnly` and
`stopPrice` params, its own fresh `client_order_id`. -/
def stop_request_of (strategy symbol : String) (side : OrderSide)
    (entry_price stop_distance position_size : ℚ) (now_ns : Int) : OrderRequest :=
  let stop_side := if side = OrderSide.buy then OrderSide.sell else OrderSide.buy
  let cid := make_client_order_id strategy symbol stop_side.value none 0 now_ns
  { symbol := symbol, type := OrderType.stop_market.value, side := stop_side.value,
    amount := position_size, price := none,
    params := { clientOrderId := cid, reduceOnly := some true,
                stopPrice := some (stop_price_of side entry_price stop_distance) } }

/-- `_install_stop`. When `entry_price` is `None` the Python expression
`entry_price - stop_distance` raises `TypeError` before any venue call; the
caller's `except` only logs it, so the state comes back unchanged. Under
dry-run the request is only logged. Otherwise the stop order is submitted;
on success `_update_position` runs, on a venue exception the error is logged
and nothing else happens. Returns the updated state and the list of venue
`create_order` calls made. -/
def install_stop (venue : VenueBehavior) (dry_run : Bool) (strategy exchange symbol : String)
    (side : OrderSide) (entry_price : Option ℚ) (stop_distance position_size : ℚ)
    (now_ns : Int) (st : ExecState) : ExecState × List OrderRequest :=
  match entry_price with
  | none => (st, [])
  | some entry =>
    let req := stop_request_of strategy symbol side entry stop_distance position_size now_ns
    if dry_run then (st, [])
    else
      match venue.create_order req with
      | .ok _ =>
        let quantity := if side = OrderSide.buy then position_size else -position_size
        let positions := update_position symbol exchange strategy quantity entry
          (stop_price_of side entry stop_distance) st.positions
        ({ st with positions := positions }, [req])
      | .error _ => (st, [req])

/-- The Order row `_record_order` receives from `_handle_signal` for the
entry order (dry-run and live differ only in `raw_response` and `status`). -/
def order_row_of (p : SignalPayload) (now_ns : Int) (raw_response : RawResponse)
    (status : OrderStatus) : OrderRow :=
  { client_order_id := (entry_request p now_ns).params.clientOrderId,
    strategy := p.strategy, symbol := p.symbol, exchange := p.exchange,
    side := if p.decision = "buy" then OrderSide.buy else OrderSide.sell,
    type := OrderType.limit, price := p.price,
    quantity := (p.risk.getD {}).position_size.getD 0,
    raw_request := entry_request p now_ns, raw_response := raw_response, status := status }

/-- `ExecutionService._handle_signal`: unknown exchange or falsy risk fields
drop the event; dry-run records a `new` Order row and returns; otherwise the
entry is submitted (a venue exception is only logged), recorded as `pending`,
and `_install_stop` runs inside the same `try`. `clients` is the set of
configured exchange names; `now_ns` the ambient clock. Returns the updated
state and the venue `create_order` calls made. -/
def handle_signal (dry_run : Bool) (clients : List String) (venue : VenueBehavior)
    (now_ns : Int) (p : SignalPayload) (st : ExecState) : ExecState × List OrderRequest :=
  let risk := p.risk.getD {}
  if !(clients.contains p.exchange) then (st, [])
  else if qFalsy risk.position_size || qFalsy risk.stop_distance then (st, [])
  else
    let position_size := risk.position_size.getD 0
    let stop_distance := risk.stop_distance.getD 0
    let side := if p.decision = "buy" then OrderSide.buy else OrderSide.sell
    let order_request := entry_request p now_ns
    if dry_run then
      (record_order st (order_row_of p now_ns RawResponse.dry_run OrderStatus.new), [])
    else
      match venue.create_order order_request with
      | .error _ => (st, [order_request])
      | .ok resp =>
        let st1 := record_order st (order_row_of p now_ns (RawResponse.venue resp)
          OrderStatus.pending)
        let r := install_stop venue dry_run p.strategy p.exchange p.symbol side p.price
          stop_distance position_size now_ns st1
        (r.1, order_request :: r.2)

/-- The execution service loop consuming a stream of approved signals, each
tagged with the clock value at its processing instant. -/
def process_signals (dry_run : Bool) (clients : List String) (venue : VenueBehavior) :
    List (Int × SignalPayload) → ExecState → ExecState × List OrderRequest
  | [], st => (st, [])
  | (now_ns, p) :: rest, st =>
    let r := handle_signal dry_run clients venue now_ns p st
    let r2 := process_signals dry_run clients venue rest r.1
    (r2.1, r.2 ++ r2.2)

/-- The Order row a dry-run handling of one signal persists, `none` when the
signal is dropped by validation (unknown exchange or falsy risk fields). -/
def dry_run_order_row (clients : List String) : Int × SignalPayload → Option OrderRow :=
  fun s =>
    let risk := s.2.risk.getD {}
    if !(clients.contains s.2.exchange) then none
    else if qFalsy risk.position_size || qFalsy risk.stop_distance then none
    else some (order_row_of s.2 s.1 RawResponse.dry_run OrderStatus.new)

/-! ### `src/trader/services/risk_service.py` -/

/-- `_calculate_open_risk`: `session.query(Position).all()` — every persisted
row, with no filter on `closed_at` — then
`open_risk += abs(entry_price - stop_price) * abs(quantity)`. -/
def calculate_open_risk (positions : List PositionRow) : ℚ :=
  positions.foldl (fun acc pos => acc + |pos.entry_price - pos.stop_price| * |pos.quantity|) 0

/-- Modelled from the spec: the open risk the spec describes, `Σ
|entry_price − stop_price| × |quantity|` over the open positions only (rows
whose `closed_at` is null), closed positions contributing nothing. Stated for
comparison with `calculate_open_risk` (claim C3). -/
def spec_open_risk (positions : List PositionRow) : ℚ :=
  ((positions.filter fun pos => pos.closed_at = none).map
    fun pos => |pos.entry_price - pos.stop_price| * |pos.quantity|).sum

/-- `RiskService._equity`: the hardcoded placeholder until an account service
feeds a real value. -/
def risk_service_equity : ℚ := 100000

/-- `RiskService._handle_signal`: drop when the risk payload is missing/empty
or either field is falsy; otherwise build the `PortfolioState` with
`open_risk + stop_distance * position_size`, apply the circuit breakers, then
the leverage gate `position_size / equity > max_leverage` (default 1.0);
surviving signals are republished with `risk_approved: true` (`some p`);
`none` means dropped. -/
def risk_handle_signal (positions : List PositionRow) (risk_settings : RiskSettings)
    (p : SignalPayload) : Option SignalPayload :=
  match p.risk with
  | none => none
  | some risk_payload =>
    if qFalsy risk_payload.stop_distance || qFalsy risk_payload.position_size then none
    else
      let stop_distance := risk_payload.stop_distance.getD 0
      let position_size := risk_payload.position_size.getD 0
      let open_risk := calculate_open_risk positions
      let equity := risk_service_equity
      let state : PortfolioState :=
        { equity := equity, open_risk := open_risk + stop_distance * position_size,
          cumulative_drawdown := 0, daily_loss := 0 }
      if apply_circuit_breakers state risk_settings then none
      else
        let leverage_limit := risk_settings.max_leverage.getD 1
        if position_size / equity > leverage_limit then none
        else some p

/-! ### `src/trader/services/strategy_service.py` -/

/-- Numpy slice `arr[-n:]`: the whole array when `n = 0` or `n ≥ len`,
otherwise the last `n` entries. -/
def lastN (l : List ℚ) (n : Nat) : List ℚ :=
  if n = 0 then l else l.drop (l.length - n)

/-- Numpy `.mean()`: the mean of an empty array is NaN (`none`). -/
def npMean (l : List ℚ) : Option ℚ :=
  if l.length = 0 then none else some (l.sum / l.length)

/-- `np.abs(np.diff(prices))`: absolute consecutive differences. -/
def npAbsDiff (l : List ℚ) : List ℚ :=
  (l.zip l.tail).map fun ab => |ab.2 - ab.1|

/-- `_calculate_atr`: `nan` (`none`) when `len(prices) <= period` or when the
sliced returns array is empty (mean of an empty array); otherwise the mean of
the last `period` absolute close differences. -/
def calculate_atr (prices : List ℚ) (period : Nat) : Option ℚ :=
  if prices.length ≤ period then none
  else npMean (lastN (npAbsDiff prices) period)

/-- The `parameters` dict of a strategy config, keys the trend evaluation
reads. -/
structure StrategyParams where
  fast_ma_period : Option Nat := none
  slow_ma_period : Option Nat := none
  atr_period : Option Nat := none
  atr_multiplier : Option ℚ := none
  asset_volatility : Option ℚ := none
deriving DecidableEq

/-- `fast_ma = prices[-fast_period:].mean()`; the slice is nonempty whenever
the history-length precondition held, so the `getD 0` never fires there. -/
def trend_fast_ma (params : StrategyParams) (history : List ℚ) : ℚ :=
  (npMean (lastN history (params.fast_ma_period.getD 50))).getD 0

/-- `slow_ma = prices[-slow_period:].mean()`. -/
def trend_slow_ma (params : StrategyParams) (history : List ℚ) : ℚ :=
  (npMean (lastN history (params.slow_ma_period.getD 200))).getD 0

/-- `atr = self._calculate_atr(prices, atr_period)`. -/
def trend_atr (params : StrategyParams) (history : List ℚ) : Option ℚ :=
  calculate_atr history (params.atr_period.getD 14)

/-- The dict `_evaluate_trend_strategy` returns when it emits a signal. -/
structure TrendDecision where
  action : String
  confidence : ℚ
  stop_distance : ℚ
  position_size : ℚ
deriving DecidableEq

/-- `_evaluate_trend_strategy`: `ok none` = no signal; `ok (some d)` = a
signal is emitted; `error` = an exception escapes (e.g.
`calculate_position_size` raising on `stop_distance <= 0` when
`atr_multiplier` is nonpositive). -/
def evaluate_trend_strategy (params : StrategyParams) (risk_settings : RiskSettings)
    (history : List ℚ) : Except String (Option TrendDecision) :=
  let fast_period := params.fast_ma_period.getD 50
  let slow_period := params.slow_ma_period.getD 200
  let atr_period := params.atr_period.getD 14
  if history.length < max fast_period (max slow_period atr_period) + 1 then .ok none
  else
    let fast_ma := trend_fast_ma params history
    let slow_ma := trend_slow_ma params history
    match trend_atr params history with
    | none => .ok none
    | some atr =>
      if atr ≤ 0 then .ok none
      else
        let action : Option String :=
          if fast_ma > slow_ma * (1001 / 1000) then some "buy"
          else if fast_ma < slow_ma * (999 / 1000) then some "sell"
          else none
        match action with
        | none => .ok none
        | some act =>
          let stop_distance := atr * params.atr_multiplier.getD 2
          match calculate_position_size 100000 stop_distance risk_settings
              params.asset_volatility with
          | .error e => .error e
          | .ok position_size =>
            .ok (some { action := act, confidence := 6 / 10,
                        stop_distance := stop_distance, position_size := position_size })

/-! ### Concrete inputs used by closed theorems -/

/-- A venue client whose `create_order` always succeeds. -/
def venue_accept_all : VenueBehavior := ⟨fun _ => .ok 0⟩

/-- A venue client that accepts the entry order but raises on the stop order
(distinguished by the order type). -/
def venue_reject_stops : VenueBehavior :=
  ⟨fun req => if req.type = OrderType.stop_market.value then .error "stop rejected" else .ok 0⟩

/-- A concrete approved trend signal. -/
def sample_signal : SignalPayload :=
  { strategy := "trend", exchange := "binance", symbol := "BTC/USDT", decision := "buy",
    price := some 100, risk := some { stop_distance := some 4, position_size := some 500 } }

/-- A signal whose risk dict is present but carries `stop_distance: 0`. -/
def zero_risk_signal : SignalPayload :=
  { strategy := "trend", exchange := "binance", symbol := "BTC/USDT", decision := "buy",
    price := some 100, risk := some { stop_distance := some 0, position_size := some 500 } }

/-- A position row that has been closed (`closed_at` set). -/
def closed_position_example : PositionRow :=
  { symbol := "BTC/USDT", exchange := "binance", strategy := "trend", quantity := 1000,
    entry_price := 50, stop_price := 44, reduce_only_stop_installed := true,
    closed_at := some 1 }

/-- The sixteen characters Python's `hexdigest` can emit. -/
def hexAlphabet : List Char := "0123456789abcdef".data

/-! ## Theorems -/

theorem blake2b_length (data : List Nat) (ds : Nat) : (blake2b data ds).length = ds := by
  simp only [blake2b, List.length_map, List.length_range]

theorem blake2b_mem_lt (data : List Nat) (ds : Nat) : ∀ b ∈ blake2b data ds, b < 256 := by
  intro b hb
  simp only [blake2b, List.mem_map, List.mem_range] at hb
  obtain ⟨i, _, rfl⟩ := hb
  exact Nat.mod_lt _ (by norm_num)

theorem hexdigest_length (bs : List Nat) : (hexdigest bs).length = 2 * bs.length := by
  show ((bs.map byteToHex).flatten).length = 2 * bs.length
  induction bs with
  | nil => rfl
  | cons b tl ih =>
    simp only [List.map_cons, List.flatten_cons, List.length_append, ih, byteToHex,
      List.length_cons, List.length_nil, List.length_map]
    ring

theorem hexChar_mem_alphabet : ∀ n, n < 16 → hexChar n ∈ hexAlphabet := by decide

theorem hexdigest_chars (bs : List Nat) (hb : ∀ b ∈ bs, b < 256) :
    ∀ c ∈ (hexdigest bs).data, c ∈ hexAlphabet := by
  intro c hc
  have hm : c ∈ (bs.map byteToHex).flatten := hc
  rw [List.mem_flatten] at hm
  obtain ⟨l, hl, hcl⟩ := hm
  rw [List.mem_map] at hl
  obtain ⟨b, hbbs, rfl⟩ := hl
  have hb256 := hb b hbbs
  simp only [byteToHex, List.mem_cons, List.not_mem_nil, or_false] at hcl
  rcases hcl with rfl | rfl
  · exact hexChar_mem_alphabet _ (by omega)
  · exact hexChar_mem_alphabet _ (Nat.mod_lt _ (by norm_num))

/-- Known-answer check of the blake2b embedding against CPython's
`hashlib.blake2b(b"trend:BTC/USDT:buy:1700000000000000000:0",
digest_size=12).hexdigest()`. -/
theorem make_client_order_id_known_answer :
    make_client_order_id "trend" "BTC/USDT" "buy" (some 1700000000000000000) 0 0 =
      "0a4c7487cced1c1bee3dd3a8" := by decide

/-- C2: for every strategy, symbol, side, timestamp and nonce,
`make_client_order_id` returns the same string on every invocation — in
particular the ambient clock reading (`now_ns`) is irrelevant once
`timestamp_ns` is supplied — and that string is exactly 24 characters drawn
from the lowercase hexadecimal alphabet. -/
theorem C2_make_client_order_id_deterministic_24_hex
    (strategy symbol side : String) (timestamp_ns nonce now now' : Int) :
    make_client_order_id strategy symbol side (some timestamp_ns) nonce now =
        make_client_order_id strategy symbol side (some timestamp_ns) nonce now' ∧
      (make_client_order_id strategy symbol side (some timestamp_ns) nonce now).length = 24 ∧
      ∀ c ∈ (make_client_order_id strategy symbol side (some timestamp_ns) nonce now).data,
        c ∈ hexAlphabet := by
  refine ⟨rfl, ?_, ?_⟩
  · show (hexdigest (blake2b _ 12)).length = 24
    rw [hexdigest_length, blake2b_length]
  · show ∀ c ∈ (hexdigest (blake2b _ 12)).data, c ∈ hexAlphabet
    exact hexdigest_chars _ (blake2b_mem_lt _ _)

/-- C1 (refuted, code bug): the same approved signal processed twice — the
message redelivered after a cursor rewind, here one nanosecond later — hands
the venue adapter a *different* `clientOrderId`, because `_handle_signal`
calls `make_client_order_id(strategy, symbol, side.value)` without
`timestamp_ns`, so the id hashes the clock at processing time. The first
venue `create_order` call of each processing carries distinct ids. -/
theorem C1_redelivery_changes_client_order_id :
    ((handle_signal false ["binance"] venue_accept_all 1700000000000000000 sample_signal
        ⟨[], []⟩).2.head?.map fun req => req.params.clientOrderId) ≠
      ((handle_signal false ["binance"] venue_accept_all 1700000000000000001 sample_signal
        ⟨[], []⟩).2.head?.map fun req => req.params.clientOrderId) := by decide

theorem foldl_add_eq_sum (f : PositionRow → ℚ) (l : List PositionRow) (a : ℚ) :
    l.foldl (fun acc pos => acc + f pos) a = a + (l.map f).sum := by
  induction l generalizing a with
  | nil => simp
  | cons p tl ih => simp [ih, add_assoc]

/-- C3 (amended): the open risk `RiskService` loads is
`Σ |entry_price − stop_price| × |quantity|` over **all** persisted Position
rows — the query has no `closed_at` filter, so closed positions contribute
too. -/
theorem C3_open_risk_sums_all_rows (positions : List PositionRow) :
    calculate_open_risk positions =
      (positions.map fun pos => |pos.entry_price - pos.stop_price| * |pos.quantity|).sum := by
  unfold calculate_open_risk
  rw [foldl_add_eq_sum, zero_add]

/-- C3 counterexample to the claim as stated: a single *closed* position
(`closed_at` set) contributes its full risk to `_calculate_open_risk`, while
the spec's open-positions-only sum is zero. -/
theorem C3_closed_position_counted :
    calculate_open_risk [closed_position_example] ≠ spec_open_risk [closed_position_example] := by
  norm_num [calculate_open_risk, spec_open_risk, closed_position_example, List.filter_cons]
  rw [if_neg (by simp)]
  norm_num

/-- C6: the stop order request `_install_stop` sends after a successful entry
has stop price `entry ∓ stop_distance` (− for buys, + for sells), type
`stop_market`, `reduceOnly: true`, the side opposite to the entry, and the
entry's position size as its amount. -/
theorem C6_stop_request_fields (venue : VenueBehavior) (strategy exchange symbol : String)
    (side : OrderSide) (entry_price stop_distance position_size : ℚ) (now_ns : Int)
    (st : ExecState) :
    (install_stop venue false strategy exchange symbol side (some entry_price)
        stop_distance position_size now_ns st).2 =
      [stop_request_of strategy symbol side entry_price stop_distance position_size now_ns] ∧
    (stop_request_of strategy symbol side entry_price stop_distance position_size
        now_ns).params.stopPrice =
      some (if side = OrderSide.buy then entry_price - stop_distance
        else entry_price + stop_distance) ∧
    (stop_request_of strategy symbol side entry_price stop_distance position_size
        now_ns).type = OrderType.stop_market.value ∧
    (stop_request_of strategy symbol side entry_price stop_distance position_size
        now_ns).params.reduceOnly = some true ∧
    (stop_request_of strategy symbol side entry_price stop_distance position_size
        now_ns).side =
      (if side = OrderSide.buy then OrderSide.sell else OrderSide.buy).value ∧
    (stop_request_of strategy symbol side entry_price stop_distance position_size
        now_ns).amount = position_size := by
  refine ⟨?_, ?_, ?_, ?_, ?_, ?_⟩
  · cases h : venue.create_order
        (stop_request_of strategy symbol side entry_price stop_distance position_size now_ns) <;>
      simp [install_stop, h]
  · cases side <;> rfl
  · rfl
  · rfl
  · cases side <;> rfl
  · rfl

/-- C4: for every portfolio state whose `open_risk` strictly exceeds
`max_portfolio_heat × equity` (with the source's default `0.06` when the key
is absent) and every risk configuration, `apply_circuit_breakers` halts. -/
theorem C4_heat_cap_halts (state : PortfolioState) (config : RiskSettings)
    (h : state.open_risk > config.max_portfolio_heat.getD (6 / 100) * state.equity) :
    apply_circuit_breakers state config = true := by
  simp only [apply_circuit_breakers]
  split_ifs <;> rfl

/-- Witness for C4 at a concrete state and the empty configuration. -/
theorem C4_heat_cap_halts_witness :
    (1 : ℚ) > ({} : RiskSettings).max_portfolio_heat.getD (6 / 100) * 1 ∧
      apply_circuit_breakers ⟨1, 1, 0, 0, 1⟩ {} = true :=
  ⟨by norm_num [Option.getD_none],
    C4_heat_cap_halts ⟨1, 1, 0, 0, 1⟩ {} (by norm_num [Option.getD_none])⟩

/-- C5: whenever `calculate_position_size` returns a value (rather than
raising), that value is at most
`max_risk_per_trade × equity / stop_distance`, with `max_risk_per_trade`
defaulting to `0.02` when absent from the settings. -/
theorem C5_position_size_bounded (equity stop_distance : ℚ) (settings : RiskSettings)
    (asset_vol : Option ℚ) (size : ℚ)
    (hpos : 0 < stop_distance)
    (h : calculate_position_size equity stop_distance settings asset_vol = .ok size) :
    size ≤ settings.max_risk_per_trade.getD (2 / 100) * equity / stop_distance := by
  have hbound : equity * settings.max_risk_per_trade.getD (2 / 100) / stop_distance =
      settings.max_risk_per_trade.getD (2 / 100) * equity / stop_distance := by ring
  simp only [calculate_position_size] at h
  rw [if_neg (not_le.mpr hpos)] at h
  split at h
  · split at h
    · exact absurd h (by simp)
    · split at h
      · exact absurd h (by simp)
      · simp only [calculate_volatility_targeted_position_value] at h
        split at h
        · exact absurd h (by simp)
        · simp only [Except.ok.injEq] at h
          rw [← h, ← hbound]
          exact min_le_left _ _
  · simp only [Except.ok.injEq] at h
    rw [← h, ← hbound]

/-- Witness for C5: default settings, equity 100000, stop distance 4 give
size 500 ≤ 0.02 × 100000 / 4. -/
theorem C5_position_size_bounded_witness :
    (0 : ℚ) < 4 ∧
      calculate_position_size 100000 4 {} none = .ok 500 ∧
      (500 : ℚ) ≤ ({} : RiskSettings).max_risk_per_trade.getD (2 / 100) * 100000 / 4 :=
  ⟨by norm_num,
    by norm_num [calculate_position_size, Option.getD_none],
    C5_position_size_bounded 100000 4 {} none 500 (by norm_num)
      (by norm_num [calculate_position_size, Option.getD_none])⟩

/-- C7: venue accepts the entry order but raises on the stop order creation:
the Order row recorded with status `pending` stays persisted (its own
transaction already committed, nothing rolls it back) and no Position row is
created — `_update_position` runs only on the stop-success path; the error is
only logged. -/
theorem C7_stop_failure_keeps_pending_order_no_position
    (clients : List String) (venue : VenueBehavior) (now_ns : Int) (p : SignalPayload)
    (st : ExecState) (r : RiskPayload) (entry : ℚ) (resp : Nat) (err : String)
    (hr : p.risk = some r)
    (hps : qFalsy r.position_size = false)
    (hsd : qFalsy r.stop_distance = false)
    (hcl : clients.contains p.exchange = true)
    (hpr : p.price = some entry)
    (hentry : venue.create_order (entry_request p now_ns) = .ok resp)
    (hstop : venue.create_order (stop_request_of p.strategy p.symbol
        (if p.decision = "buy" then OrderSide.buy else OrderSide.sell) entry
        (r.stop_distance.getD 0) (r.position_size.getD 0) now_ns) = .error err) :
    (handle_signal false clients venue now_ns p st).1.orders =
        st.orders ++ [order_row_of p now_ns (RawResponse.venue resp) OrderStatus.pending] ∧
      (handle_signal false clients venue now_ns p st).1.positions = st.positions := by
  simp only [handle_signal, hr, Option.getD_some, hcl, Bool.not_true, Bool.false_eq_true,
    if_false, hps, hsd, Bool.or_self, hentry, install_stop, hpr, hstop, record_order]
  constructor <;> first | rfl | trivial

/-- Witness for C7: the `venue_reject_stops` client accepts the entry of
`sample_signal` and raises on its stop; the resulting state holds exactly the
pending Order row and no position. -/
theorem C7_stop_failure_witness :
    (handle_signal false ["binance"] venue_reject_stops 1700000000000000000 sample_signal
        ⟨[], []⟩).1.orders =
      [order_row_of sample_signal 1700000000000000000 (RawResponse.venue 0)
        OrderStatus.pending] ∧
    (handle_signal false ["binance"] venue_reject_stops 1700000000000000000 sample_signal
        ⟨[], []⟩).1.positions = [] := by
  have h := C7_stop_failure_keeps_pending_order_no_position ["binance"] venue_reject_stops
    1700000000000000000 sample_signal ⟨[], []⟩ ⟨some 4, some 500⟩ 100 0 "stop rejected"
    rfl (by decide) (by decide) (by decide) rfl (by decide) (by decide)
  simpa using h

theorem handle_signal_dry_run (clients : List String) (venue : VenueBehavior) (now_ns : Int)
    (p : SignalPayload) (st : ExecState) :
    handle_signal true clients venue now_ns p st =
      ({ st with orders := st.orders ++ (dry_run_order_row clients (now_ns, p)).toList }, []) := by
  by_cases hm : p.exchange ∈ clients
  · by_cases h2 : qFalsy (p.risk.getD {}).position_size = true ∨
        qFalsy (p.risk.getD {}).stop_distance = true
    · simp [handle_signal, dry_run_order_row, record_order, hm, h2]
    · simp [handle_signal, dry_run_order_row, record_order, hm, h2]
  · simp [handle_signal, dry_run_order_row, record_order, hm]

theorem process_signals_dry_run (clients : List String) (venue : VenueBehavior)
    (sigs : List (Int × SignalPayload)) (st : ExecState) :
    process_signals true clients venue sigs st =
      ({ st with orders := st.orders ++ sigs.filterMap (dry_run_order_row clients) }, []) := by
  induction sigs generalizing st with
  | nil => simp [process_signals]
  | cons s rest ih =>
    obtain ⟨now_ns, p⟩ := s
    simp only [process_signals, handle_signal_dry_run, ih]
    cases h : dry_run_order_row clients (now_ns, p) <;>
      simp [h, List.filterMap_cons, List.append_assoc]

/-- C8: with `app.dry_run = true`, processing any stream of approved signals
makes zero venue `create_order` calls, leaves the positions table empty,
appends exactly one Order row per signal that passes validation, and every
appended row has status `new` and the `dry_run` raw response; no stop is ever
installed. -/
theorem C8_dry_run_isolation (clients : List String) (venue : VenueBehavior)
    (sigs : List (Int × SignalPayload)) (orders0 : List OrderRow) :
    (process_signals true clients venue sigs ⟨orders0, []⟩).2 = [] ∧
    (process_signals true clients venue sigs ⟨orders0, []⟩).1.positions = [] ∧
    (process_signals true clients venue sigs ⟨orders0, []⟩).1.orders =
      orders0 ++ sigs.filterMap (dry_run_order_row clients) ∧
    ∀ row ∈ sigs.filterMap (dry_run_order_row clients),
      row.status = OrderStatus.new ∧ row.raw_response = RawResponse.dry_run := by
  refine ⟨?_, ?_, ?_, ?_⟩
  · rw [process_signals_dry_run]
  · rw [process_signals_dry_run]
  · rw [process_signals_dry_run]
  · intro row hrow
    rw [List.mem_filterMap] at hrow
    obtain ⟨s, _, hsome⟩ := hrow
    simp only [dry_run_order_row] at hsome
    split at hsome
    · exact Option.noConfusion hsome
    · split at hsome
      · exact Option.noConfusion hsome
      · rw [Option.some.injEq] at hsome
        rw [← hsome]
        exact ⟨rfl, rfl⟩

/-- Witness for C8 at a concrete signal stream. -/
theorem C8_dry_run_isolation_witness :
    (process_signals true ["binance"] venue_accept_all [(1700000000000000000, sample_signal)]
        ⟨[], []⟩).2 = [] ∧
    (process_signals true ["binance"] venue_accept_all [(1700000000000000000, sample_signal)]
        ⟨[], []⟩).1.positions = [] ∧
    (process_signals true ["binance"] venue_accept_all [(1700000000000000000, sample_signal)]
        ⟨[], []⟩).1.orders =
      [] ++ [(1700000000000000000, sample_signal)].filterMap (dry_run_order_row ["binance"]) ∧
    ∀ row ∈ [(1700000000000000000, sample_signal)].filterMap (dry_run_order_row ["binance"]),
      row.status = OrderStatus.new ∧ row.raw_response = RawResponse.dry_run :=
  C8_dry_run_isolation ["binance"] venue_accept_all [(1700000000000000000, sample_signal)] []

/-- C9: the trend evaluation emits no signal when the history is shorter than
`max(fast, slow, atr) + 1`, or the ATR is NaN (`none`) or nonpositive, or the
fast MA lies inside the closed hysteresis band
`[slow × 0.999, slow × 1.001]`; equivalently a signal implies none of those
conditions held. -/
theorem C9_trend_no_signal_conditions (params : StrategyParams) (risk_settings : RiskSettings)
    (history : List ℚ)
    (h : history.length < max (params.fast_ma_period.getD 50)
          (max (params.slow_ma_period.getD 200) (params.atr_period.getD 14)) + 1 ∨
        (∀ v, trend_atr params history = some v → v ≤ 0) ∨
        (trend_slow_ma params history * (999 / 1000) ≤ trend_fast_ma params history ∧
          trend_fast_ma params history ≤ trend_slow_ma params history * (1001 / 1000))) :
    ∀ d, evaluate_trend_strategy params risk_settings history ≠ .ok (some d) := by
  intro d hd
  simp only [evaluate_trend_strategy] at hd
  by_cases hlen : history.length < max (params.fast_ma_period.getD 50)
      (max (params.slow_ma_period.getD 200) (params.atr_period.getD 14)) + 1
  · rw [if_pos hlen] at hd
    exact Option.noConfusion (Except.ok.inj hd)
  · rw [if_neg hlen] at hd
    rcases h with h | h | h
    · exact hlen h
    · cases hatr : trend_atr params history with
      | none =>
        simp only [hatr] at hd
        exact Option.noConfusion (Except.ok.inj hd)
      | some v =>
        simp only [hatr] at hd
        rw [if_pos (h v hatr)] at hd
        exact Option.noConfusion (Except.ok.inj hd)
    · cases hatr : trend_atr params history with
      | none =>
        simp only [hatr] at hd
        exact Option.noConfusion (Except.ok.inj hd)
      | some v =>
        simp only [hatr] at hd
        by_cases hv : v ≤ 0
        · rw [if_pos hv] at hd
          exact Option.noConfusion (Except.ok.inj hd)
        · rw [if_neg hv, if_neg (not_lt.mpr h.2), if_neg (not_lt.mpr h.1)] at hd
          exact Option.noConfusion (Except.ok.inj hd)

/-- Witness for C9: the empty history is shorter than the default
`max(50, 200, 14) + 1`, and the evaluation indeed emits no signal. -/
theorem C9_trend_no_signal_witness :
    ([] : List ℚ).length < max (({} : StrategyParams).fast_ma_period.getD 50)
        (max (({} : StrategyParams).slow_ma_period.getD 200)
          (({} : StrategyParams).atr_period.getD 14)) + 1 ∧
      ∀ d, evaluate_trend_strategy {} {} [] ≠ .ok (some d) :=
  ⟨by decide, C9_trend_no_signal_conditions {} {} [] (Or.inl (by decide))⟩

/-- C10: a signal whose risk dict is present but whose `stop_distance` or
`position_size` equals 0 is dropped by `RiskService` (never republished on
`approved_signals`), exactly as if the field were missing — Python truthiness
conflates 0 with `None` at the `if not stop_distance or not position_size`
gate. -/
theorem C10_zero_risk_field_dropped (positions : List PositionRow)
    (risk_settings : RiskSettings) (p : SignalPayload) (r : RiskPayload)
    (hr : p.risk = some r)
    (hzero : r.stop_distance = some 0 ∨ r.position_size = some 0) :
    risk_handle_signal positions risk_settings p = none := by
  simp only [risk_handle_signal, hr]
  rcases hzero with hz | hz <;> rw [hz] <;> simp [qFalsy]

/-- Witness for C10: `zero_risk_signal` carries `stop_distance: 0` and is
dropped. -/
theorem C10_zero_risk_field_dropped_witness :
    zero_risk_signal.risk = some ⟨some 0, some 500⟩ ∧
    ((⟨some 0, some 500⟩ : RiskPayload).stop_distance = some 0 ∨
      (⟨some 0, some 500⟩ : RiskPayload).position_size = some 0) ∧
    risk_handle_signal [] {} zero_risk_signal = none :=
  ⟨rfl, Or.inl rfl,
    C10_zero_risk_field_dropped [] {} zero_risk_signal ⟨some 0, some 500⟩ rfl (Or.inl rfl)⟩

end Trader
